import Mathlib

/-!
Shallow embedding of the Luigi climate monitoring module
(`src/sensors/climate/`): the derived-metric calculator, the
cooldown-gated alert manager, the sensor read/retry loops, and the
SQLite-backed time-series store, together with proofs of the spec's
testable properties.

Modelling conventions:
- Python floats are modelled as exact rationals (`ℚ`); the dew-point
  computation uses the natural logarithm and is therefore stated over `ℝ`.
- `round(x, 1)` is modelled as round-to-nearest of `10*x` divided by 10;
  no input appearing below sits on an exact `.05` tie, so the tie-breaking
  mode is irrelevant to every statement proved here.
- The SQLite table is a list of rows in insertion order; timestamps are
  rationals measured in days.
-/

namespace Climate

/-- `round(x, 1)` from Python, over `ℚ`: round to one decimal place. -/
def round1 (x : ℚ) : ℚ := ((round (10 * x) : ℤ) : ℚ) / 10

/-- `round(x, 1)` from Python, over `ℝ` (used by the dew-point path). -/
noncomputable def round1R (x : ℝ) : ℝ := ((round (10 * x) : ℤ) : ℝ) / 10

/-! ### ClimateCalculations (climate_module.py) -/

/-- `ClimateCalculations.celsius_to_fahrenheit`: `(celsius * 9/5) + 32`. -/
def celsius_to_fahrenheit (celsius : ℚ) : ℚ := (celsius * 9 / 5) + 32

/-- `ClimateCalculations.fahrenheit_to_celsius`: `(fahrenheit - 32) * 5/9`. -/
def fahrenheit_to_celsius (fahrenheit : ℚ) : ℚ := (fahrenheit - 32) * 5 / 9

/-- Magnus constant `a = 17.27`. -/
def magnusA : ℝ := 17.27

/-- Magnus constant `b = 237.7`. -/
def magnusB : ℝ := 237.7

/-- `ClimateCalculations.calculate_dew_point`: Magnus formula,
`alpha = a*t/(b+t) + log(h/100)`, `dew_point = b*alpha/(a-alpha)`,
rounded to one decimal. Stated over `ℝ` because of `math.log`. -/
noncomputable def calculate_dew_point (temperature_c humidity : ℝ) : ℝ :=
  let a := magnusA
  let b := magnusB
  let alpha := ((a * temperature_c) / (b + temperature_c)) + Real.log (humidity / 100)
  let dew_point := (b * alpha) / (a - alpha)
  round1R dew_point

/-- `ClimateCalculations.calculate_heat_index`: NOAA 9-coefficient
polynomial in Fahrenheit/percent space; `None` below 80 °F. -/
def calculate_heat_index (temperature_c humidity : ℚ) : Option ℚ :=
  let temp_f := celsius_to_fahrenheit temperature_c
  if temp_f < 80 then none
  else
    let c1 : ℚ := -42.379
    let c2 : ℚ := 2.04901523
    let c3 : ℚ := 10.14333127
    let c4 : ℚ := -0.22475541
    let c5 : ℚ := -0.00683783
    let c6 : ℚ := -0.05481717
    let c7 : ℚ := 0.00122874
    let c8 : ℚ := 0.00085282
    let c9 : ℚ := -0.00000199
    let hi_f := c1 + (c2 * temp_f) + (c3 * humidity) +
        (c4 * temp_f * humidity) + (c5 * temp_f * temp_f) +
        (c6 * humidity * humidity) + (c7 * temp_f * temp_f * humidity) +
        (c8 * temp_f * humidity * humidity) +
        (c9 * temp_f * temp_f * humidity * humidity)
    some (round1 (fahrenheit_to_celsius hi_f))

/-- The separator `'_and_'` used by `calculate_comfort_level`. -/
def comfortSep : String := "_and_"

/-- `ClimateCalculations.calculate_comfort_level`: classify against the
fixed bounds (cold < 18, hot > 26, dry < 30, humid > 60); zero issues
gives `"comfortable"`, one issue gives that tag, several are joined by
`'_and_'` in temperature-then-humidity order. -/
def calculate_comfort_level (temperature_c humidity : ℚ) : String :=
  let issues : List String :=
    (if temperature_c < 18 then ["too_cold"]
     else if temperature_c > 26 then ["too_hot"] else []) ++
    (if humidity < 30 then ["too_dry"]
     else if humidity > 60 then ["too_humid"] else [])
  match issues with
  | [] => "comfortable"
  | [single] => single
  | more => String.intercalate comfortSep more

/-! ### Alert manager (ClimateModule._trigger_alert) -/

/-- `self.last_alert_time`: a mapping from alert kind to the time (in
minutes) it last fired, `none` when it never fired. -/
structure AlertState where
  last_alert_time : String → Option ℚ

/-- The observable outcome of one `_trigger_alert` call: the state after
the call, whether the alert fired, and how many warning-log entries and
playback invocations the call emitted. -/
structure TriggerResult where
  state : AlertState
  fired : Bool
  warning_logs : ℕ
  playback_invocations : ℕ

/-- The fall-through of `_trigger_alert` once the cooldown check passes:
record `now` as last-fired for `alert_type`, log one warning, and invoke
playback once when audio alerting is enabled. -/
def alertFire (audio_enabled : Bool) (st : AlertState) (alert_type : String)
    (now : ℚ) : TriggerResult :=
  { state := ⟨fun k => if k = alert_type then some now else st.last_alert_time k⟩
    fired := true
    warning_logs := 1
    playback_invocations := if audio_enabled then 1 else 0 }

/-- `ClimateModule._trigger_alert`: under the alert lock, compare `now`
with the last-fired time for `alert_type`; within `cooldown_minutes`
this is a no-op, otherwise the alert fires. Times are in minutes. -/
def trigger_alert (cooldown_minutes : ℚ) (audio_enabled : Bool)
    (st : AlertState) (alert_type : String) (now : ℚ) : TriggerResult :=
  match st.last_alert_time alert_type with
  | some last_time =>
      if now - last_time < cooldown_minutes then
        { state := st, fired := false, warning_logs := 0, playback_invocations := 0 }
      else alertFire audio_enabled st alert_type now
  | none => alertFire audio_enabled st alert_type now

/-! ### Sensor read/retry loops (dht22_sensor.py, bme280_sensor.py) -/

/-- One raw access of the DHT22 device: each field may be missing. -/
structure DHTOutput where
  temperature : Option ℚ
  humidity : Option ℚ

/-- One raw access of the BME280 device. -/
structure BMEOutput where
  temperature : Option ℚ
  humidity : Option ℚ
  pressure : Option ℚ

/-- A successful DHT22 reading (both fields rounded to one decimal). -/
structure Reading where
  temperature : ℚ
  humidity : ℚ

/-- A successful BME280 reading. -/
structure BMEReading where
  temperature : ℚ
  humidity : ℚ
  pressure : ℚ

/-- The body of one DHT22 read attempt: `none` models the attempt raising
(missing field or a field outside the valid range −40..80 °C / 0..100 %),
`some` is the validated, rounded reading. -/
def dhtAttempt (o : DHTOutput) : Option Reading :=
  match o.temperature, o.humidity with
  | some t, some h =>
      if -40 ≤ t ∧ t ≤ 80 ∧ 0 ≤ h ∧ h ≤ 100 then
        some ⟨round1 t, round1 h⟩
      else none
  | _, _ => none

/-- The body of one BME280 read attempt: temperature and humidity are
validated (range −40..85 °C / 0..100 %); a missing pressure makes the
attempt fail at `round(pressure, 1)`, so the attempt also requires
pressure to be present (its value is never range-checked). -/
def bmeAttempt (o : BMEOutput) : Option BMEReading :=
  match o.temperature, o.humidity with
  | some t, some h =>
      if -40 ≤ t ∧ t ≤ 85 ∧ 0 ≤ h ∧ h ≤ 100 then
        match o.pressure with
        | some p => some ⟨round1 t, round1 h, round1 p⟩
        | none => none
      else none
  | _, _ => none

/-- The shared `for attempt in range(max_retries)` loop of both `read`
methods: try attempts `i, i+1, ...` while fuel remains; the first
successful attempt is returned, exhaustion returns `None`. -/
def retryRead {α : Type} (attempt : ℕ → Option α) : ℕ → ℕ → Option α
  | _, 0 => none
  | i, fuel + 1 =>
      match attempt i with
      | some r => some r
      | none => retryRead attempt (i + 1) fuel

/-- `DHT22Sensor.read`: up to `max_retries` attempts against the device,
modelled as the sequence of its per-attempt raw outputs. -/
def dht22_read (dev : ℕ → DHTOutput) (max_retries : ℕ) : Option Reading :=
  retryRead (fun i => dhtAttempt (dev i)) 0 max_retries

/-- `BME280Sensor.read`. -/
def bme280_read (dev : ℕ → BMEOutput) (max_retries : ℕ) : Option BMEReading :=
  retryRead (fun i => bmeAttempt (dev i)) 0 max_retries

/-! ### Time-series store (database/climate_db.py)

The `climate_readings` table is a list of rows in insertion order;
timestamps are rationals in days. -/

/-- One row of `climate_readings`. -/
structure StoredRecord where
  id : ℕ
  timestamp : ℚ
  temperature_c : ℚ
  temperature_f : ℚ
  humidity : ℚ
  dew_point_c : Option ℚ
  heat_index_c : Option ℚ
  comfort_level : Option String

/-- `ClimateDatabase.log_reading`: a single `INSERT`; the id is assigned
by `AUTOINCREMENT` and the timestamp defaults to the current time. -/
def log_reading (db : List StoredRecord) (now : ℚ)
    (temperature_c temperature_f humidity : ℚ)
    (dew_point_c heat_index_c : Option ℚ) (comfort_level : Option String) :
    List StoredRecord :=
  db ++ [{ id := db.length + 1, timestamp := now,
           temperature_c := temperature_c, temperature_f := temperature_f,
           humidity := humidity, dew_point_c := dew_point_c,
           heat_index_c := heat_index_c, comfort_level := comfort_level }]

/-- Scan for `ORDER BY timestamp DESC LIMIT 1`: keep the row with the
greatest timestamp (later rows win ties). -/
def latestAux : Option StoredRecord → List StoredRecord → Option StoredRecord
  | best, [] => best
  | none, r :: rs => latestAux (some r) rs
  | some b, r :: rs =>
      latestAux (if b.timestamp ≤ r.timestamp then some r else some b) rs

/-- `ClimateDatabase.get_latest_reading`: the row with the greatest
timestamp, `none` on an empty table. -/
def get_latest_reading (db : List StoredRecord) : Option StoredRecord :=
  latestAux none db

/-- `ClimateDatabase.cleanup_old_data`: `DELETE WHERE timestamp < cutoff`
with `cutoff = now - retention_days`; returns the remaining table and the
cursor's `rowcount` (the number of rows the `DELETE` matched). -/
def cleanup_old_data (db : List StoredRecord) (now retention_days : ℚ) :
    List StoredRecord × ℕ :=
  let cutoff := now - retention_days
  (db.filter (fun r => ¬ r.timestamp < cutoff),
   (db.filter (fun r => r.timestamp < cutoff)).length)

/-- One `{min, max, avg}` block of `get_statistics`, after the Python
truthiness guard `round(v, 1) if v else None`. -/
structure StatsField where
  min : Option ℚ
  max : Option ℚ
  avg : Option ℚ

/-- The dictionary returned by `get_statistics`. -/
structure Statistics where
  period : String
  start_time : ℚ
  end_time : ℚ
  temperature : StatsField
  humidity : StatsField
  reading_count : ℕ

/-- The guard `round(v, 1) if v else None`: a zero aggregate is reported
as absent because `0.0` is falsy in Python. -/
def nullIfZero (v : ℚ) : Option ℚ := if v = 0 then none else some (round1 v)

/-- The window start resolved by `get_statistics`: one day, one week, or
30 days back; any unrecognized period falls back to one day. -/
def resolveStart (now : ℚ) (period : String) : ℚ :=
  if period = "day" then now - 1
  else if period = "week" then now - 7
  else if period = "month" then now - 30
  else now - 1

/-- A `{min, max, avg}` block over a nonempty value list (head `v`,
tail `vs`), including the truthiness guard applied to each aggregate. -/
def aggField (v : ℚ) (vs : List ℚ) : StatsField :=
  { min := nullIfZero (vs.foldl min v)
    max := nullIfZero (vs.foldl max v)
    avg := nullIfZero ((v :: vs).sum / (v :: vs).length) }

/-- `ClimateDatabase.get_statistics`: aggregate `MIN/MAX/AVG/COUNT` over
the rows with `timestamp >= start`; `none` when the count is zero. -/
def get_statistics (db : List StoredRecord) (now : ℚ) (period : String) :
    Option Statistics :=
  let start := resolveStart now period
  match db.filter (fun r => start ≤ r.timestamp) with
  | [] => none
  | x :: xs =>
      some { period := period, start_time := start, end_time := now,
             temperature :=
               aggField x.temperature_c (xs.map StoredRecord.temperature_c),
             humidity := aggField x.humidity (xs.map StoredRecord.humidity),
             reading_count := (x :: xs).length }

/-- The payload of a `Statistics` value with the echoed `period` field
stripped, for comparing results across period strings. -/
def statsData (s : Statistics) : ℚ × ℚ × StatsField × StatsField × ℕ :=
  (s.start_time, s.end_time, s.temperature, s.humidity, s.reading_count)

end Climate

namespace Climate

/-- C3 counterexample: at `t = 25.06` (inside the sensors' valid range)
and `h = 100`, the Magnus dew point equals `t` exactly, and rounding to
one decimal lifts it to `25.1 > 25.06`, so `dew_point_c(t,h) ≤ t` fails
for temperatures that are not multiples of `0.1`. -/
theorem dew_point_above_temperature_at_25_06 :
    -40 ≤ (25.06 : ℝ) ∧ (25.06 : ℝ) ≤ 80 ∧ (0 : ℝ) < 100 ∧ (100 : ℝ) ≤ 100 ∧
      calculate_dew_point 25.06 100 = 25.1 ∧ (25.06 : ℝ) < 25.1 := by
  refine ⟨by norm_num, by norm_num, by norm_num, by norm_num, ?_, by norm_num⟩
  show round1R _ = _
  rw [round1R]
  norm_num [magnusA, magnusB, round_eq, Real.log_one]

/-- C3 (amended): for every temperature in the sensors' valid range that
is a multiple of 0.1 — as every temperature produced by a sensor read is,
since reads round to one decimal — and every humidity `0 < h ≤ 100`, the
rounded Magnus dew point is at most the temperature. -/
theorem dew_point_le_temperature (t h : ℝ) (k : ℤ)
    (ht1 : -40 ≤ t) (ht2 : t ≤ 85) (htk : t = k / 10)
    (hh0 : 0 < h) (hh1 : h ≤ 100) :
    calculate_dew_point t h ≤ t := by
  rw [calculate_dew_point, magnusA, magnusB]
  set L := Real.log (h / 100) with hLdef
  have hb : (0 : ℝ) < 237.7 + t := by linarith
  have hL : L ≤ 0 := by
    apply Real.log_nonpos
    · positivity
    · rw [div_le_one (by norm_num : (0:ℝ) < 100)]; linarith
  set s := 17.27 * t / (237.7 + t) with hsdef
  have hst : s * (237.7 + t) = 17.27 * t := div_mul_cancel₀ _ (ne_of_gt hb)
  have hsa : s < 17.27 := by
    rw [hsdef, div_lt_iff hb]; nlinarith
  have hpos : 0 < 17.27 - (s + L) := by linarith
  have hLmul : L * (237.7 + t) ≤ 0 := by
    have := mul_le_mul_of_nonneg_right hL hb.le
    simpa using this
  have hraw : 237.7 * (s + L) / (17.27 - (s + L)) ≤ t := by
    rw [div_le_iff hpos]
    nlinarith
  rw [round1R]
  have hk : round (10 * (237.7 * (s + L) / (17.27 - (s + L)))) ≤ k := by
    have h10 : 10 * (237.7 * (s + L) / (17.27 - (s + L))) ≤ ((k : ℤ) : ℝ) := by
      rw [htk] at hraw
      push_cast
      linarith
    calc round (10 * (237.7 * (s + L) / (17.27 - (s + L))))
        ≤ round ((k : ℤ) : ℝ) := by
          rw [round_eq, round_eq]
          exact Int.floor_mono (by linarith)
      _ = k := round_intCast k
  rw [htk]
  have := (div_le_div_iff_of_pos_right (c := (10:ℝ)) (by norm_num)).mpr
    (show ((round (10 * (237.7 * (s + L) / (17.27 - (s + L)))) : ℤ) : ℝ) ≤ (k : ℝ) by
      exact_mod_cast hk)
  exact this

/-- C3 witness: the theorem applied at the spec's example `t = 25`,
`h = 50` (with `25 = 250/10`). -/
theorem dew_point_le_temperature_at_25_50 :
    calculate_dew_point 25 50 ≤ 25 :=
  dew_point_le_temperature 25 50 250 (by norm_num) (by norm_num) (by norm_num)
    (by norm_num) (by norm_num)

/-- C4 counterexample: at `t = 30`, `h = 0` (within `0 ≤ h ≤ 100`,
`c_to_f(t) = 86 ≥ 80`) the NOAA polynomial gives `28.5 °C < 30 °C`, so
the defined heat index is not strictly greater than the temperature. -/
theorem heat_index_not_above_temperature_at_30_0 :
    80 ≤ celsius_to_fahrenheit 30 ∧ (0 : ℚ) ≤ 0 ∧ (0 : ℚ) ≤ 100 ∧
      calculate_heat_index 30 0 = some (57 / 2) ∧ (57 / 2 : ℚ) < 30 := by
  refine ⟨?_, by norm_num, by norm_num, ?_, by norm_num⟩
  · norm_num [celsius_to_fahrenheit]
  · rw [calculate_heat_index]
    norm_num [celsius_to_fahrenheit, fahrenheit_to_celsius, round1, round_eq]

/-- C4 (amended): `heat_index_c(t,h)` is absent exactly when
`c_to_f(t) < 80` and is a defined value otherwise; it is not always
greater than `t` (see the counterexample at `h = 0`), but at the spec's
example `t = 35`, `h = 60` it is defined and exceeds `35 °C`. -/
theorem heat_index_defined_iff (t h : ℚ) :
    (calculate_heat_index t h = none ↔ celsius_to_fahrenheit t < 80) ∧
    (80 ≤ celsius_to_fahrenheit t → ∃ v, calculate_heat_index t h = some v) ∧
    (∃ v, calculate_heat_index 35 60 = some v ∧ 35 < v) := by
  refine ⟨?_, ?_, ?_⟩
  · rw [calculate_heat_index]
    split_ifs with hc <;> simp [hc]
  · intro hge
    rw [calculate_heat_index, if_neg (not_lt.2 hge)]
    exact ⟨_, rfl⟩
  · refine ⟨451 / 10, ?_, by norm_num⟩
    rw [calculate_heat_index]
    norm_num [celsius_to_fahrenheit, fahrenheit_to_celsius, round1, round_eq]

/-- C4 witness: the defined case applied at `t = 35`, `h = 60`, where
`c_to_f(35) = 95 ≥ 80`. -/
theorem heat_index_defined_at_35_60 :
    ∃ v, calculate_heat_index 35 60 = some v :=
  (heat_index_defined_iff 35 60).2.1 (by norm_num [celsius_to_fahrenheit])

/-- C6: `comfort_level` returns `"comfortable"` when no bound is
violated, the single violated tag when exactly one is, and the two tags
joined by `'_and_'` (temperature first) when a temperature bound and a
humidity bound are both violated. -/
theorem comfort_level_spec (t h : ℚ) :
    (¬ t < 18 → ¬ t > 26 → ¬ h < 30 → ¬ h > 60 →
      calculate_comfort_level t h = "comfortable") ∧
    (t < 18 → ¬ h < 30 → ¬ h > 60 → calculate_comfort_level t h = "too_cold") ∧
    (t > 26 → ¬ h < 30 → ¬ h > 60 → calculate_comfort_level t h = "too_hot") ∧
    (¬ t < 18 → ¬ t > 26 → h < 30 → calculate_comfort_level t h = "too_dry") ∧
    (¬ t < 18 → ¬ t > 26 → h > 60 → calculate_comfort_level t h = "too_humid") ∧
    (t < 18 → h < 30 → calculate_comfort_level t h = "too_cold_and_too_dry") ∧
    (t < 18 → h > 60 → calculate_comfort_level t h = "too_cold_and_too_humid") ∧
    (t > 26 → h < 30 → calculate_comfort_level t h = "too_hot_and_too_dry") ∧
    (t > 26 → h > 60 → calculate_comfort_level t h = "too_hot_and_too_humid") := by
  refine ⟨fun a b c d => ?_, fun a b c => ?_, fun a b c => ?_, fun a b c => ?_,
    fun a b c => ?_, fun a b => ?_, fun a b => ?_, fun a b => ?_, fun a b => ?_⟩ <;>
    simp only [calculate_comfort_level]
  · rw [if_neg a, if_neg b, if_neg c, if_neg d]; rfl
  · rw [if_pos a, if_neg b, if_neg c]; rfl
  · rw [if_neg (show ¬ t < 18 by linarith), if_pos a, if_neg b, if_neg c]; rfl
  · rw [if_neg a, if_neg b, if_pos c]; rfl
  · rw [if_neg a, if_neg b, if_neg (show ¬ h < 30 by linarith), if_pos c]; rfl
  · rw [if_pos a, if_pos b]; rfl
  · rw [if_pos a, if_neg (show ¬ h < 30 by linarith), if_pos b]; rfl
  · rw [if_neg (show ¬ t < 18 by linarith), if_pos a, if_pos b]; rfl
  · rw [if_neg (show ¬ t < 18 by linarith), if_pos a,
      if_neg (show ¬ h < 30 by linarith), if_pos b]; rfl

/-- C6 witness: the spec's examples, `(22, 45)` comfortable and
`(28, 65)` hot-and-humid in temperature-first order. -/
theorem comfort_level_at_examples :
    calculate_comfort_level 22 45 = "comfortable" ∧
      calculate_comfort_level 28 65 = "too_hot_and_too_humid" :=
  ⟨(comfort_level_spec 22 45).1 (by norm_num) (by norm_num) (by norm_num)
      (by norm_num),
    (comfort_level_spec 28 65).2.2.2.2.2.2.2.2 (by norm_num) (by norm_num)⟩

/-- Alert kind used in the concrete cooldown scenario. -/
def kindHot : String := "too_hot"

/-- A second, distinct alert kind. -/
def kindCold : String := "too_cold"

/-- A `_trigger_alert` call that fired took the fall-through branch. -/
lemma trigger_alert_fired_eq {cooldown : ℚ} {audio : Bool} {st : AlertState}
    {kind : String} {now : ℚ}
    (hf : (trigger_alert cooldown audio st kind now).fired = true) :
    trigger_alert cooldown audio st kind now = alertFire audio st kind now := by
  cases hst : st.last_alert_time kind with
  | none => simp only [trigger_alert, hst]
  | some last_time =>
      simp only [trigger_alert, hst] at hf ⊢
      rcases lt_or_le (now - last_time) cooldown with hc | hc
      · rw [if_pos hc] at hf
        simp at hf
      · rw [if_neg (not_lt.2 hc)]

/-- C1: if a `trigger_alert(kind, ·)` call at time `t1` fires, it records
`t1` as last-fired, emits one warning log and at most one playback
invocation (none when audio is disabled); a second call on the same kind
less than `cooldown_minutes` later is a no-op that leaves the state
unchanged and emits nothing; a call at least `cooldown_minutes` after
`t1` fires again; and the firing leaves every other kind's last-fired
time untouched. Times are in minutes. -/
theorem trigger_alert_cooldown (cooldown : ℚ) (audio : Bool)
    (st0 : AlertState) (kind k2 : String) (t1 t2 t3 : ℚ)
    (hfired : (trigger_alert cooldown audio st0 kind t1).fired = true)
    (h12 : t1 ≤ t2) (hlt : t2 - t1 < cooldown) (hge : cooldown ≤ t3 - t1)
    (hk2 : k2 ≠ kind) :
    (trigger_alert cooldown audio st0 kind t1).state.last_alert_time kind
        = some t1 ∧
    (trigger_alert cooldown audio st0 kind t1).warning_logs = 1 ∧
    (trigger_alert cooldown audio st0 kind t1).playback_invocations ≤ 1 ∧
    (audio = false →
      (trigger_alert cooldown audio st0 kind t1).playback_invocations = 0) ∧
    trigger_alert cooldown audio
        (trigger_alert cooldown audio st0 kind t1).state kind t2 =
      { state := (trigger_alert cooldown audio st0 kind t1).state,
        fired := false, warning_logs := 0, playback_invocations := 0 } ∧
    (trigger_alert cooldown audio
        (trigger_alert cooldown audio st0 kind t1).state kind t3).fired = true ∧
    (trigger_alert cooldown audio st0 kind t1).state.last_alert_time k2
        = st0.last_alert_time k2 := by
  have he := trigger_alert_fired_eq hfired
  rw [he]
  have hrec : (alertFire audio st0 kind t1).state.last_alert_time kind
      = some t1 := by
    simp [alertFire]
  refine ⟨hrec, rfl, ?_, ?_, ?_, ?_, ?_⟩
  · cases audio <;> simp [alertFire]
  · intro ha
    simp [alertFire, ha]
  · simp only [trigger_alert, hrec]
    rw [if_pos (by linarith : t2 - t1 < cooldown)]
  · simp only [trigger_alert, hrec]
    rw [if_neg (not_lt.2 (by linarith : cooldown ≤ t3 - t1))]
    simp [alertFire]
  · simp [alertFire, hk2]

/-- C1 witness: a fresh state, `cooldown = 30`, audio on; calls on
`"too_hot"` at minutes 0, 10, 30, and independence against
`"too_cold"`. -/
theorem trigger_alert_cooldown_witness :
    (trigger_alert 30 true ⟨fun _ => none⟩ kindHot 0).state.last_alert_time
        kindHot = some 0 ∧
    (trigger_alert 30 true ⟨fun _ => none⟩ kindHot 0).warning_logs = 1 ∧
    (trigger_alert 30 true ⟨fun _ => none⟩ kindHot 0).playback_invocations
        ≤ 1 ∧
    (true = false →
      (trigger_alert 30 true ⟨fun _ => none⟩ kindHot 0).playback_invocations
        = 0) ∧
    trigger_alert 30 true
        (trigger_alert 30 true ⟨fun _ => none⟩ kindHot 0).state kindHot 10 =
      { state := (trigger_alert 30 true ⟨fun _ => none⟩ kindHot 0).state,
        fired := false, warning_logs := 0, playback_invocations := 0 } ∧
    (trigger_alert 30 true
        (trigger_alert 30 true ⟨fun _ => none⟩ kindHot 0).state kindHot
          30).fired = true ∧
    (trigger_alert 30 true ⟨fun _ => none⟩ kindHot 0).state.last_alert_time
        kindCold = (⟨fun _ => none⟩ : AlertState).last_alert_time kindCold :=
  trigger_alert_cooldown 30 true ⟨fun _ => none⟩ kindHot kindCold 0 10 30
    rfl (by norm_num) (by norm_num) (by norm_num) (by decide)

/-- If every attempt the loop can reach fails, the loop returns `None`. -/
lemma retryRead_eq_none {α : Type} (attempt : ℕ → Option α) :
    ∀ (fuel start : ℕ), (∀ i, i < start + fuel → attempt i = none) →
      retryRead attempt start fuel = none := by
  intro fuel
  induction fuel with
  | zero => intro start _; rfl
  | succ n ih =>
      intro start h
      have h0 : attempt start = none := h start (by omega)
      simp only [retryRead, h0]
      exact ih (start + 1) fun i hi => h i (by omega)

/-- If attempt `start + j` is the first success and the loop has fuel to
reach it, the loop returns that success. -/
lemma retryRead_eq_some {α : Type} (attempt : ℕ → Option α) (r : α) :
    ∀ (fuel start j : ℕ), j < fuel →
      (∀ i, i < j → attempt (start + i) = none) →
      attempt (start + j) = some r → retryRead attempt start fuel = some r := by
  intro fuel
  induction fuel with
  | zero => intro start j hj; omega
  | succ n ih =>
      intro start j hj hprev hsucc
      cases j with
      | zero =>
          have h0 : attempt start = some r := by simpa using hsucc
          simp only [retryRead, h0]
      | succ m =>
          have h0 : attempt start = none := by simpa using hprev 0 (by omega)
          simp only [retryRead, h0]
          refine ih (start + 1) m (by omega) (fun i hi => ?_) ?_
          · have heq : start + 1 + i = start + (i + 1) := by omega
            rw [heq]
            exact hprev (i + 1) (by omega)
          · have heq : start + 1 + m = start + (m + 1) := by omega
            rw [heq]
            exact hsucc

/-- Anything the loop returns came from some attempt. -/
lemma retryRead_some_exists {α : Type} (attempt : ℕ → Option α) (r : α) :
    ∀ (fuel start : ℕ), retryRead attempt start fuel = some r →
      ∃ j, attempt j = some r := by
  intro fuel
  induction fuel with
  | zero => intro start h; simp [retryRead] at h
  | succ n ih =>
      intro start h
      cases ha : attempt start with
      | some x =>
          simp only [retryRead, ha] at h
          exact ⟨start, by rw [ha, h]⟩
      | none =>
          simp only [retryRead, ha] at h
          exact ih (start + 1) h

/-- C5: if a sensor's device yields invalid readings on attempts
`1..N-1` and a valid reading on attempt `N ≤ max_retries`, `read()`
returns that reading; if every attempt up to `max_retries` is invalid,
`read()` returns `None` (a failure value, not an exception) — for both
the DHT22 and the BME280 drivers. Attempts are 1-indexed; an "invalid"
attempt is one whose body fails (missing field or out-of-range value). -/
theorem sensor_read_retry (dev : ℕ → DHTOutput) (bdev : ℕ → BMEOutput)
    (max_retries N : ℕ) (r : Reading) (br : BMEReading)
    (hN : 1 ≤ N) (hNm : N ≤ max_retries) :
    ((∀ i, i < N - 1 → dhtAttempt (dev i) = none) →
      dhtAttempt (dev (N - 1)) = some r →
      dht22_read dev max_retries = some r) ∧
    ((∀ i, i < max_retries → dhtAttempt (dev i) = none) →
      dht22_read dev max_retries = none) ∧
    ((∀ i, i < N - 1 → bmeAttempt (bdev i) = none) →
      bmeAttempt (bdev (N - 1)) = some br →
      bme280_read bdev max_retries = some br) ∧
    ((∀ i, i < max_retries → bmeAttempt (bdev i) = none) →
      bme280_read bdev max_retries = none) := by
  refine ⟨fun hprev hsucc => ?_, fun hall => ?_, fun hprev hsucc => ?_,
    fun hall => ?_⟩
  · exact retryRead_eq_some _ r max_retries 0 (N - 1) (by omega)
      (fun i hi => by simpa using hprev i hi) (by simpa using hsucc)
  · exact retryRead_eq_none _ max_retries 0 fun i hi => hall i (by omega)
  · exact retryRead_eq_some _ br max_retries 0 (N - 1) (by omega)
      (fun i hi => by simpa using hprev i hi) (by simpa using hsucc)
  · exact retryRead_eq_none _ max_retries 0 fun i hi => hall i (by omega)

/-- DHT22 device for the retry witness: attempt 1 reports an
out-of-range humidity, attempt 2 is valid. -/
def devRetryOk : ℕ → DHTOutput :=
  fun i => if i = 0 then ⟨some 25, some 150⟩ else ⟨some 22, some 51⟩

/-- BME280 device for the retry witness: attempt 1 misses humidity,
attempt 2 is valid. -/
def bdevRetryOk : ℕ → BMEOutput :=
  fun i => if i = 0 then ⟨some 25, none, some 1013⟩
           else ⟨some 22, some 51, some 1013⟩

/-- DHT22 device whose every attempt misses the temperature field. -/
def devAlwaysBad : ℕ → DHTOutput := fun _ => ⟨none, some 50⟩

/-- BME280 device whose every attempt misses the pressure field. -/
def bdevAlwaysBad : ℕ → BMEOutput := fun _ => ⟨some 22, some 50, none⟩

/-- C5 witness: `N = 2`, `max_retries = 3`: one invalid attempt then a
valid one yields the reading; all-invalid devices yield `None`. -/
theorem sensor_read_retry_witness :
    dht22_read devRetryOk 3 = some ⟨22, 51⟩ ∧
    bme280_read bdevRetryOk 3 = some ⟨22, 51, 1013⟩ ∧
    dht22_read devAlwaysBad 3 = none ∧
    bme280_read bdevAlwaysBad 3 = none := by
  obtain ⟨h1, h2, h3, h4⟩ := sensor_read_retry devRetryOk bdevRetryOk 3 2
    ⟨22, 51⟩ ⟨22, 51, 1013⟩ (by omega) (by omega)
  obtain ⟨_, hb2, _, hb4⟩ := sensor_read_retry devAlwaysBad bdevAlwaysBad 3 2
    ⟨22, 51⟩ ⟨22, 51, 1013⟩ (by omega) (by omega)
  refine ⟨h1 ?_ ?_, h3 ?_ ?_, hb2 ?_, hb4 ?_⟩
  · intro i hi
    have : i = 0 := by omega
    subst this
    norm_num [devRetryOk, dhtAttempt]
  · norm_num [devRetryOk, dhtAttempt, round1, round_eq]
  · intro i hi
    have : i = 0 := by omega
    subst this
    norm_num [bdevRetryOk, bmeAttempt]
  · norm_num [bdevRetryOk, bmeAttempt, round1, round_eq]
  · intro i _
    norm_num [devAlwaysBad, dhtAttempt]
  · intro i _
    norm_num [bdevAlwaysBad, bmeAttempt]

/-- C9: every successful `read()` returns the rounded-to-one-decimal
values of some device attempt, not the raw device values — for both
drivers (the BME280 additionally rounds pressure). -/
theorem read_values_rounded (dev : ℕ → DHTOutput) (bdev : ℕ → BMEOutput)
    (n m : ℕ) (r : Reading) (br : BMEReading) :
    (dht22_read dev n = some r →
      ∃ j t h, (dev j).temperature = some t ∧ (dev j).humidity = some h ∧
        r.temperature = round1 t ∧ r.humidity = round1 h) ∧
    (bme280_read bdev m = some br →
      ∃ j t h p, (bdev j).temperature = some t ∧
        (bdev j).humidity = some h ∧ (bdev j).pressure = some p ∧
        br.temperature = round1 t ∧ br.humidity = round1 h ∧
        br.pressure = round1 p) := by
  constructor
  · intro hread
    obtain ⟨j, hj⟩ := retryRead_some_exists _ r n 0 hread
    cases ht : (dev j).temperature with
    | none => simp [dhtAttempt, ht] at hj
    | some t =>
        cases hh : (dev j).humidity with
        | none => simp [dhtAttempt, ht, hh] at hj
        | some h =>
            simp only [dhtAttempt, ht, hh] at hj
            split_ifs at hj with hcond
            obtain rfl := Option.some.inj hj
            exact ⟨j, t, h, ht, hh, rfl, rfl⟩
  · intro hread
    obtain ⟨j, hj⟩ := retryRead_some_exists _ br m 0 hread
    cases ht : (bdev j).temperature with
    | none => simp [bmeAttempt, ht] at hj
    | some t =>
        cases hh : (bdev j).humidity with
        | none => simp [bmeAttempt, ht, hh] at hj
        | some h =>
            cases hp : (bdev j).pressure with
            | none => simp [bmeAttempt, ht, hh, hp] at hj
            | some p =>
                simp only [bmeAttempt, ht, hh, hp] at hj
                split_ifs at hj with hcond
                obtain rfl := Option.some.inj hj
                exact ⟨j, t, h, p, ht, hh, hp, rfl, rfl, rfl⟩

/-- C9 witness: the successful reads of the retry witness devices are
rounded values of a device attempt. -/
theorem read_values_rounded_witness :
    (∃ j t h, (devRetryOk j).temperature = some t ∧
      (devRetryOk j).humidity = some h ∧
      (Reading.mk 22 51).temperature = round1 t ∧
      (Reading.mk 22 51).humidity = round1 h) ∧
    (∃ j t h p, (bdevRetryOk j).temperature = some t ∧
      (bdevRetryOk j).humidity = some h ∧
      (bdevRetryOk j).pressure = some p ∧
      (BMEReading.mk 22 51 1013).temperature = round1 t ∧
      (BMEReading.mk 22 51 1013).humidity = round1 h ∧
      (BMEReading.mk 22 51 1013).pressure = round1 p) := by
  obtain ⟨hd, hb⟩ := read_values_rounded devRetryOk bdevRetryOk 3 3
    ⟨22, 51⟩ ⟨22, 51, 1013⟩
  refine ⟨hd ?_, hb ?_⟩
  · norm_num [dht22_read, retryRead, devRetryOk, dhtAttempt, round1, round_eq]
  · norm_num [bme280_read, retryRead, bdevRetryOk, bmeAttempt, round1,
      round_eq]

/-- Rows kept plus rows deleted by the retention cutoff partition the
table. -/
lemma cleanup_length_partition (db : List StoredRecord) (cutoff : ℚ) :
    (db.filter fun r => ¬ r.timestamp < cutoff).length +
      (db.filter fun r => r.timestamp < cutoff).length = db.length := by
  induction db with
  | nil => rfl
  | cons r rs ih =>
      simp only [List.filter_cons, List.length_cons]
      by_cases h : r.timestamp < cutoff
      · rw [if_neg (by simp [h]), if_pos (by simp [h]), List.length_cons]
        omega
      · rw [if_pos (by simp [h]), if_neg (by simp [h]), List.length_cons]
        omega

/-- The five-row table of the retention scenario: rows aged 1, 10, 29,
31 and 40 days at `now = 100`. -/
def retentionDb : List StoredRecord :=
  [⟨1, 99, 20, 68, 50, none, none, none⟩,
   ⟨2, 90, 20, 68, 50, none, none, none⟩,
   ⟨3, 71, 20, 68, 50, none, none, none⟩,
   ⟨4, 69, 20, 68, 50, none, none, none⟩,
   ⟨5, 60, 20, 68, 50, none, none, none⟩]

/-- C2: `cleanup_old_data` keeps exactly the rows whose timestamp is not
older than `now − retention_days` (leaving them unchanged, in order),
returns the number of deleted rows, and is idempotent; on rows aged
{1, 10, 29, 31, 40} days with `retention_days = 30` it deletes exactly
the rows aged 31 and 40 days and returns 2. -/
theorem cleanup_old_data_spec :
    (∀ (db : List StoredRecord) (now retention_days : ℚ),
      (cleanup_old_data db now retention_days).1 =
          db.filter (fun r => ¬ r.timestamp < now - retention_days) ∧
      (cleanup_old_data db now retention_days).2 =
          db.length - (cleanup_old_data db now retention_days).1.length ∧
      cleanup_old_data (cleanup_old_data db now retention_days).1 now
          retention_days = ((cleanup_old_data db now retention_days).1, 0)) ∧
    cleanup_old_data retentionDb 100 30 =
      ([⟨1, 99, 20, 68, 50, none, none, none⟩,
        ⟨2, 90, 20, 68, 50, none, none, none⟩,
        ⟨3, 71, 20, 68, 50, none, none, none⟩], 2) := by
  constructor
  · intro db now ret
    refine ⟨rfl, ?_, ?_⟩
    · have hp := cleanup_length_partition db (now - ret)
      simp only [cleanup_old_data]
      omega
    · simp only [cleanup_old_data, List.filter_filter, Prod.mk.injEq]
      constructor
      · congr 1
        funext r
        cases hr : decide (¬ r.timestamp < now - ret) <;> simp [hr]
      · have : (db.filter fun r =>
            decide (r.timestamp < now - ret) &&
              decide (¬ r.timestamp < now - ret)) = [] := by
          apply List.filter_eq_nil_iff.2
          intro r _
          by_cases h : r.timestamp < now - ret <;> simp [h]
        rw [this]
        rfl
  · simp only [cleanup_old_data, retentionDb, List.filter]
    norm_num

/-- Scanning rows that are all older than `new` and then `new` itself
always selects `new`. -/
lemma latestAux_append (new : StoredRecord) :
    ∀ (rows : List StoredRecord) (best : Option StoredRecord),
      (∀ r ∈ rows, r.timestamp < new.timestamp) →
      (∀ b, best = some b → b.timestamp < new.timestamp) →
      latestAux best (rows ++ [new]) = some new := by
  intro rows
  induction rows with
  | nil =>
      intro best _ hbest
      cases best with
      | none => rfl
      | some b =>
          have hb := hbest b rfl
          simp only [List.nil_append, latestAux]
          rw [if_pos hb.le]
  | cons r rs ih =>
      intro best hall hbest
      cases best with
      | none =>
          simp only [List.cons_append, latestAux]
          exact ih (some r) (fun x hx => hall x (List.mem_cons_of_mem _ hx))
            (fun b hb => by
              have hrb : r = b := Option.some.inj hb
              rw [← hrb]
              exact hall r (by simp))
      | some b =>
          simp only [List.cons_append, latestAux]
          refine ih _ (fun x hx => hall x (List.mem_cons_of_mem _ hx)) ?_
          intro c hc
          split_ifs at hc with hle
          · have hrc : r = c := Option.some.inj hc
            rw [← hrc]
            exact hall r (by simp)
          · have hbc : b = c := Option.some.inj hc
            rw [← hbc]
            exact hbest b rfl

/-- C7: a record written by `log_reading` at a time later than every
existing row is returned field-for-field by `get_latest_reading`. -/
theorem log_reading_roundtrip (db : List StoredRecord) (now : ℚ)
    (temperature_c temperature_f humidity : ℚ)
    (dew_point_c heat_index_c : Option ℚ) (comfort_level : Option String)
    (hts : ∀ r ∈ db, r.timestamp < now) :
    get_latest_reading
        (log_reading db now temperature_c temperature_f humidity
          dew_point_c heat_index_c comfort_level) =
      some ⟨db.length + 1, now, temperature_c, temperature_f, humidity,
        dew_point_c, heat_index_c, comfort_level⟩ := by
  unfold get_latest_reading log_reading
  exact latestAux_append _ db none (fun r hr => hts r hr) (fun b hb => by
    simp at hb)

/-- C7 witness: writing on top of a one-row table returns the written
record. -/
theorem log_reading_roundtrip_witness :
    get_latest_reading
        (log_reading [⟨1, 0, 20, 68, 50, none, none, none⟩] 1
          21 69.8 55 (some 12) none none) =
      some ⟨2, 1, 21, 69.8, 55, some 12, none, none⟩ := by
  have h := log_reading_roundtrip [⟨1, 0, 20, 68, 50, none, none, none⟩] 1
    21 69.8 55 (some 12) none none (by
      intro r hr
      rw [List.mem_singleton] at hr
      subst hr
      norm_num)
  simpa using h

/-- The period string `"day"`. -/
def periodDay : String := "day"

/-- An unrecognized period string. -/
def periodBanana : String := "banana"

/-- One-row table whose only temperature is exactly `0 °C`. -/
def zeroTempDb : List StoredRecord := [⟨1, 1/2, 0, 32, 50, none, none, none⟩]

/-- C8: at a table holding one in-window reading with
`temperature_c = 0`, `get_statistics` reports the temperature minimum,
maximum and average as absent (`None`) although the window is nonempty —
the `round(v, 1) if v else None` guard treats the aggregate value `0.0`
as missing. The humidity block and the count are reported normally. -/
theorem get_statistics_zero_aggregate_absent :
    get_statistics zeroTempDb 1 periodDay =
      some { period := periodDay, start_time := 0, end_time := 1,
             temperature := ⟨none, none, none⟩,
             humidity := ⟨some 50, some 50, some 50⟩,
             reading_count := 1 } := by
  simp only [get_statistics, zeroTempDb]
  rw [show resolveStart 1 periodDay = 0 from by simp [resolveStart, periodDay]]
  norm_num [aggField, nullIfZero, round1, round_eq, List.filter]

/-- One-row table with a nonzero temperature, in the one-day window. -/
def statsOkDb : List StoredRecord := [⟨1, 1/2, 20, 68, 50, none, none, none⟩]

/-- C10 counterexample: for an unrecognized period string the result is
not equal to `get_statistics("day")` — the returned dictionary echoes
the period string it was given. -/
theorem get_statistics_unknown_period_not_equal :
    get_statistics statsOkDb 1 periodBanana ≠ get_statistics statsOkDb 1 periodDay := by
  have hb : get_statistics statsOkDb 1 periodBanana =
      some { period := periodBanana, start_time := 0, end_time := 1,
             temperature := ⟨some 20, some 20, some 20⟩,
             humidity := ⟨some 50, some 50, some 50⟩,
             reading_count := 1 } := by
    simp only [get_statistics, statsOkDb]
    rw [show resolveStart 1 periodBanana = 0 from by simp [resolveStart, periodBanana]]
    norm_num [aggField, nullIfZero, round1, round_eq, List.filter]
  have hd : get_statistics statsOkDb 1 periodDay =
      some { period := periodDay, start_time := 0, end_time := 1,
             temperature := ⟨some 20, some 20, some 20⟩,
             humidity := ⟨some 50, some 50, some 50⟩,
             reading_count := 1 } := by
    simp only [get_statistics, statsOkDb]
    rw [show resolveStart 1 periodDay = 0 from by simp [resolveStart, periodDay]]
    norm_num [aggField, nullIfZero, round1, round_eq, List.filter]
  rw [hb, hd]
  intro hEq
  have hper := congrArg (fun o => Option.map Statistics.period o) hEq
  simp [periodBanana, periodDay] at hper

/-- C10 (amended): for every period string outside
`{"day", "week", "month"}`, `get_statistics` falls back to the one-day
window and returns the same statistics as `get_statistics("day")` over
the same data at the same time, except that the echoed `period` field
holds the string that was passed in. -/
theorem get_statistics_unknown_period_fallback (db : List StoredRecord)
    (now : ℚ) (period : String)
    (h1 : period ≠ "day") (h2 : period ≠ "week") (h3 : period ≠ "month") :
    (get_statistics db now period).map statsData =
      (get_statistics db now periodDay).map statsData := by
  have hs : resolveStart now period = resolveStart now periodDay := by
    simp [resolveStart, periodDay, h1, h2, h3]
  simp only [get_statistics]
  rw [hs]
  cases db.filter fun r => resolveStart now periodDay ≤ r.timestamp with
  | nil => rfl
  | cons x xs => simp [statsData]

/-- C10 witness: the fallback equality at the concrete table and
`period = "banana"`. -/
theorem get_statistics_unknown_period_fallback_witness :
    (get_statistics statsOkDb 1 periodBanana).map statsData =
      (get_statistics statsOkDb 1 periodDay).map statsData :=
  get_statistics_unknown_period_fallback statsOkDb 1 periodBanana
    (by decide) (by decide) (by decide)

end Climate

deriving instance DecidableEq for Climate.Reading
deriving instance DecidableEq for Climate.BMEReading
deriving instance DecidableEq for Climate.StoredRecord
deriving instance DecidableEq for Climate.StatsField
deriving instance DecidableEq for Climate.Statistics
